import Mathlib

/-!
Verification of the job-lifecycle core of the ai-advertisement backend.

The embedding mirrors the Python modules:
- `backend/app/models/job_storage.py`: JSON job store (`create_job`,
  `update_job_status`, `get_job`, `delete_job`). The persisted file is
  modelled as the list of job records it holds (`jobs_data["jobs"]`);
  `datetime.now().isoformat()` is modelled by an explicit `now : String`
  argument; successful file I/O is the modelled environment, so
  `save_jobs` yields `true`.
- `backend/app/services/job_service.py`: the `JobManager` pipeline
  (`_process_job`, `cancel_job`); backend calls are modelled by their
  outcomes (`Except String String`).
- `backend/main.py`: the `ConnectionManager` WebSocket hub (`broadcast`),
  with delivery outcomes modelled per observer.
-/

namespace AiAdvert

/-- `JobStatus` enum from job_storage.py. -/
inductive JobStatus where
  | pending
  | processing
  | completed
  | failed
deriving DecidableEq, Repr

/-- `JobStatus.value`: the string stored in the JSON record. -/
def JobStatus.value : JobStatus → String
  | .pending => "pending"
  | .processing => "processing"
  | .completed => "completed"
  | .failed => "failed"

/-- `JobType` enum from job_storage.py. -/
inductive JobType where
  | logo
  | video
  | both
deriving DecidableEq, Repr

/-- `JobType.value`: the string stored in the JSON record. -/
def JobType.value : JobType → String
  | .logo => "logo"
  | .video => "video"
  | .both => "both"

/-- One job record, with the exact fields `create_job` writes into the
JSON dict. Optional JSON fields (`None` in Python) are `Option`s. -/
structure Job where
  job_id : String
  prompt : String
  job_type : String
  status : String
  logo_url : Option String
  video_url : Option String
  error_message : Option String
  created_at : String
  started_at : Option String
  completed_at : Option String
  progress : Int
  user_id : String
deriving DecidableEq, Repr

/-- The persisted collection `jobs_data["jobs"]`. -/
abbrev Store := List Job

/-- The fresh record built by `create_job` (job_storage.py lines 54-67). -/
def mkNewJob (job_id prompt : String) (job_type : JobType) (user_id now : String) : Job :=
  { job_id := job_id
    prompt := prompt
    job_type := job_type.value
    status := JobStatus.pending.value
    logo_url := none
    video_url := none
    error_message := none
    created_at := now
    started_at := none
    completed_at := none
    progress := 0
    user_id := user_id }

/-- `create_job`: inserts the new record at index 0 and saves; the save
succeeds in the modelled environment, so the call returns `true`. -/
def create_job (store : Store) (job_id prompt : String) (job_type : JobType)
    (user_id now : String) : Bool × Store :=
  (true, mkNewJob job_id prompt job_type user_id now :: store)

/-- The field mutations `update_job_status` performs on the record it
found (job_storage.py lines 94-115): status is overwritten
unconditionally, each non-`None` optional argument overwrites its field,
then the timestamp block runs. -/
def applyUpdate (job : Job) (status : JobStatus) (progress : Option Int)
    (logo_url video_url error_message : Option String) (now : String) : Job :=
  let job := { job with status := status.value }
  let job := match progress with
    | some p => { job with progress := p }
    | none => job
  let job := match logo_url with
    | some u => { job with logo_url := some u }
    | none => job
  let job := match video_url with
    | some u => { job with video_url := some u }
    | none => job
  let job := match error_message with
    | some m => { job with error_message := some m }
    | none => job
  match status with
  | .processing => { job with started_at := some now }
  | .completed | .failed =>
      let job := { job with completed_at := some now }
      if progress = none then { job with progress := 100 } else job
  | .pending => job

/-- Replace the first record whose `job_id` matches, `none` when absent
(the index search of job_storage.py lines 83-90). -/
def updateFirst (jobs : List Job) (job_id : String) (f : Job → Job) :
    Option (List Job) :=
  match jobs with
  | [] => none
  | j :: rest =>
      if j.job_id = job_id then some (f j :: rest)
      else (updateFirst rest job_id f).map (j :: ·)

/-- `update_job_status`: finds the first record with the given id,
applies the field mutations, saves. Returns `false` (store unchanged)
when the id is not found. -/
def update_job_status (store : Store) (job_id : String) (status : JobStatus)
    (progress : Option Int) (logo_url video_url error_message : Option String)
    (now : String) : Bool × Store :=
  match updateFirst store job_id
      (fun j => applyUpdate j status progress logo_url video_url error_message now) with
  | none => (false, store)
  | some jobs => (true, jobs)

/-- `get_job`: first record with the given id, else `None`. -/
def get_job (store : Store) (job_id : String) : Option Job :=
  store.find? (fun j => j.job_id == job_id)

/-- `delete_job`: keeps every record whose id differs and saves; the
return value is the save result, `true` in the modelled environment. -/
def delete_job (store : Store) (job_id : String) : Bool × Store :=
  (true, store.filter (fun j => j.job_id != job_id))

/-- `JobManager._process_job` (job_service.py lines 45-107), as its
sequence of store effects. The backend calls `generate_logo` and
`generate_ad_video` are modelled by their outcomes (`.ok url` /
`.error cause`, mirroring a returned URL or a raised exception whose
`str` is the cause); `t1`-`t6` are the successive `datetime.now()`
values of the update calls. The returned `Nat` counts invocations of
the video backend. The `prompt` argument of the Python coroutine only
feeds the backends, so it lives inside the modelled outcomes. -/
def process_job (store : Store) (job_id : String) (generate_video : Bool)
    (logoResult videoResult : Except String String)
    (t1 t2 t3 t4 t5 t6 : String) : Store × Nat :=
  let store := (update_job_status store job_id .processing (some 10) none none none t1).2
  let store := (update_job_status store job_id .processing (some 30) none none none t2).2
  match logoResult with
  | .error e =>
      ((update_job_status store job_id .failed none none none
          (some ("Logo generation failed: " ++ e)) t3).2, 0)
  | .ok logo_url =>
      let store := (update_job_status store job_id .processing (some 60)
        (some logo_url) none none t3).2
      if generate_video then
        let store := (update_job_status store job_id .processing (some 70)
          none none none t4).2
        match videoResult with
        | .ok video_url =>
            let store := (update_job_status store job_id .processing (some 90)
              (some logo_url) (some video_url) none t5).2
            ((update_job_status store job_id .completed (some 100)
                (some logo_url) (some video_url) none t6).2, 1)
        | .error _ =>
            ((update_job_status store job_id .completed (some 100)
                (some logo_url) none none t6).2, 1)
      else
        ((update_job_status store job_id .completed (some 100)
            (some logo_url) none none t6).2, 0)

/-- The in-memory active registry of `JobManager`: the modelled part is
the set of dict keys (`jobId -> handle`); handles only carry the
cancellation signal, which has no persisted effect of its own. -/
structure JobManager where
  active_jobs : List String
deriving DecidableEq, Repr

/-- `JobManager.cancel_job` (job_service.py lines 114-125): when the id
is in the registry it cancels the task, deletes the registry key, and
persists `FAILED` with `error_message="Job cancelled by user"`. -/
def JobManager.cancel_job (m : JobManager) (store : Store) (job_id : String)
    (now : String) : Bool × JobManager × Store :=
  if job_id ∈ m.active_jobs then
    let m' : JobManager := ⟨m.active_jobs.filter (fun k => k != job_id)⟩
    let store' := (update_job_status store job_id .failed none none none
      (some "Job cancelled by user") now).2
    (true, m', store')
  else
    (false, m, store)

/-- The WebSocket `ConnectionManager` of main.py; observers are
identified by opaque tags. -/
structure ConnectionManager where
  active_connections : List Nat
deriving DecidableEq, Repr

/-- The `for` loop of `ConnectionManager.broadcast`: deliveries happen
in registration order; `send c = .error msg` models `send_text` raising,
which propagates out of the loop at once, so later observers get
nothing. Returns the observers actually delivered to and the propagated
exception, if any. -/
def broadcastGo (conns : List Nat) (send : Nat → Except String Unit) :
    List Nat × Option String :=
  match conns with
  | [] => ([], none)
  | c :: rest =>
      match send c with
      | .ok _ =>
          let r := broadcastGo rest send
          (c :: r.1, r.2)
      | .error msg => ([], some msg)

/-- `ConnectionManager.broadcast` (main.py lines 80-82): the method body
is only the delivery loop; `self.active_connections` is never modified,
also not when a delivery raises. -/
def ConnectionManager.broadcast (m : ConnectionManager)
    (send : Nat → Except String Unit) :
    ConnectionManager × List Nat × Option String :=
  let r := broadcastGo m.active_connections send
  (m, r.1, r.2)

/-! ### System traces on one job's record

Every persisted write the system performs on a given job after its
creation goes through `update_job_status`: the pipeline updates of
`_process_job` and the cancel write of `cancel_job`. A `JobOp` packs
one such call's arguments. The inductive `SysTrace` enumerates the
per-job call sequences the system can produce under the cooperative
scheduling of the code: `cancel_job` runs only while the job id is in
the active registry, and the registry entry is removed in the same
uninterruptible stretch that persists a terminal status (the coroutine
has no suspension point between them), so cancellation can interleave
only at the pipeline's await points; a delivered cancellation raises
`CancelledError`, which the pipeline's `except Exception` handlers do
not catch, so nothing is persisted after it. The pipeline's outer
`except Exception` may instead turn any suspension point into a final
`FAILED` write. -/

/-- The arguments of one `update_job_status` call on the job. -/
structure JobOp where
  status : JobStatus
  progress : Option Int
  logo_url : Option String
  video_url : Option String
  error_message : Option String
  now : String
deriving DecidableEq, Repr

/-- Run one recorded call against the store. -/
def applyOp (store : Store) (job_id : String) (op : JobOp) : Store :=
  (update_job_status store job_id op.status op.progress op.logo_url
    op.video_url op.error_message op.now).2

/-- Run a sequence of recorded calls against the store. -/
def applyOps (store : Store) (job_id : String) (ops : List JobOp) : Store :=
  ops.foldl (fun s op => applyOp s job_id op) store

/-- A progress-milestone update of the pipeline (`PROCESSING`). -/
def procOp (progress : Int) (logo_url video_url : Option String) (now : String) : JobOp :=
  ⟨.processing, some progress, logo_url, video_url, none, now⟩

/-- The final `COMPLETED` update of the pipeline (job_service.py line 96). -/
def doneOp (logo_url video_url : Option String) (now : String) : JobOp :=
  ⟨.completed, some 100, logo_url, video_url, none, now⟩

/-- The `FAILED` update after a logo-backend failure (line 67). -/
def logoFailOp (cause now : String) : JobOp :=
  ⟨.failed, none, none, none, some ("Logo generation failed: " ++ cause), now⟩

/-- The `FAILED` update written by `cancel_job` (lines 122-123). -/
def cancelOp (now : String) : JobOp :=
  ⟨.failed, none, none, none, some "Job cancelled by user", now⟩

/-- The `FAILED` update of the outer `except Exception` (line 102). -/
def outerFailOp (cause now : String) : JobOp :=
  ⟨.failed, none, none, none, some cause, now⟩

/-- The non-terminal stretches of the pipeline: after each of these the
coroutine may be suspended (or hit the outer handler) before the next
write. -/
inductive PipelineMids : List JobOp → Prop where
  | start : PipelineMids []
  | p10 (t1 : String) : PipelineMids [procOp 10 none none t1]
  | p30 (t1 t2 : String) :
      PipelineMids [procOp 10 none none t1, procOp 30 none none t2]
  | p60 (t1 t2 : String) (l : String) (t3 : String) :
      PipelineMids [procOp 10 none none t1, procOp 30 none none t2,
        procOp 60 (some l) none t3]
  | p70 (t1 t2 : String) (l : String) (t3 t4 : String) :
      PipelineMids [procOp 10 none none t1, procOp 30 none none t2,
        procOp 60 (some l) none t3, procOp 70 none none t4]
  | p90 (t1 t2 : String) (l : String) (t3 t4 : String) (v : String) (t5 : String) :
      PipelineMids [procOp 10 none none t1, procOp 30 none none t2,
        procOp 60 (some l) none t3, procOp 70 none none t4,
        procOp 90 (some l) (some v) t5]

/-- The complete per-job write sequences the running system can produce
(after `create_job`), for the pipeline of `_process_job` with `cancel_job`
interleaving at suspension points. -/
inductive SysTrace : List JobOp → Prop where
  | cancel_before_start (t : String) :
      SysTrace [cancelOp t]
  | logo_failed (t1 t2 : String) (e : String) (t3 : String) :
      SysTrace [procOp 10 none none t1, procOp 30 none none t2, logoFailOp e t3]
  | cancelled_at_logo (t1 t2 t3 : String) :
      SysTrace [procOp 10 none none t1, procOp 30 none none t2, cancelOp t3]
  | completed_no_video (t1 t2 : String) (l : String) (t3 t4 : String) :
      SysTrace [procOp 10 none none t1, procOp 30 none none t2,
        procOp 60 (some l) none t3, doneOp (some l) none t4]
  | cancelled_at_video (t1 t2 : String) (l : String) (t3 t4 t5 : String) :
      SysTrace [procOp 10 none none t1, procOp 30 none none t2,
        procOp 60 (some l) none t3, procOp 70 none none t4, cancelOp t5]
  | completed_with_video (t1 t2 : String) (l : String) (t3 t4 : String)
      (v : String) (t5 t6 : String) :
      SysTrace [procOp 10 none none t1, procOp 30 none none t2,
        procOp 60 (some l) none t3, procOp 70 none none t4,
        procOp 90 (some l) (some v) t5, doneOp (some l) (some v) t6]
  | completed_video_failed (t1 t2 : String) (l : String) (t3 t4 t5 : String) :
      SysTrace [procOp 10 none none t1, procOp 30 none none t2,
        procOp 60 (some l) none t3, procOp 70 none none t4,
        doneOp (some l) none t5]
  | outer_failure {pre : List JobOp} (e t : String) :
      PipelineMids pre → SysTrace (pre ++ [outerFailOp e t])

/-- Rank of a persisted status along `Pending -> Processing ->
{Completed, Failed}`. -/
def statusRank (s : String) : Nat :=
  if s = "pending" then 0
  else if s = "processing" then 1
  else if s = "completed" then 2
  else if s = "failed" then 2
  else 0

/-- Persisted status of the job after a sequence of recorded calls. -/
def statusAfter (store : Store) (job_id : String) (ops : List JobOp) :
    Option String :=
  (get_job (applyOps store job_id ops) job_id).map Job.status

/-! ### Basic lemmas about the store operations -/

theorem applyUpdate_job_id (j : Job) (st : JobStatus) (p : Option Int)
    (lu vu em : Option String) (t : String) :
    (applyUpdate j st p lu vu em t).job_id = j.job_id := by
  cases st <;> cases p <;> cases lu <;> cases vu <;> cases em <;>
    simp [applyUpdate]

theorem applyUpdate_status (j : Job) (st : JobStatus) (p : Option Int)
    (lu vu em : Option String) (t : String) :
    (applyUpdate j st p lu vu em t).status = st.value := by
  cases st <;> cases p <;> cases lu <;> cases vu <;> cases em <;>
    simp [applyUpdate]

theorem updateFirst_eq_none (jobs : List Job) (id : String) (f : Job → Job) :
    updateFirst jobs id f = none ↔
      jobs.find? (fun x => x.job_id == id) = none := by
  induction jobs with
  | nil => simp [updateFirst]
  | cons j rest ih =>
      by_cases h : j.job_id = id
      · simp [updateFirst, h]
      · simp [updateFirst, h, ih]

theorem updateFirst_find_self (jobs : List Job) (id : String) (f : Job → Job)
    (hf : ∀ x, (f x).job_id = x.job_id) (j : Job)
    (h : jobs.find? (fun x => x.job_id == id) = some j) :
    ∃ l, updateFirst jobs id f = some l ∧
      l.find? (fun x => x.job_id == id) = some (f j) := by
  induction jobs with
  | nil => simp at h
  | cons x rest ih =>
      by_cases hx : x.job_id = id
      · refine ⟨f x :: rest, by simp [updateFirst, hx], ?_⟩
        have hj : j = x := (by simpa [hx] using h : x = j).symm
        simp [hj, List.find?, hf, hx]
      · obtain ⟨l', hl', hfind⟩ := ih (by simpa [hx] using h)
        have hxb : (x.job_id == id) = false := by simp [hx]
        exact ⟨x :: l', by simp [updateFirst, hx, hl'],
          by simp [List.find?, hxb, hfind]⟩

theorem updateFirst_find_other (jobs : List Job) (id : String) (f : Job → Job)
    (hf : ∀ x, (f x).job_id = x.job_id) (oid : String) (hne : oid ≠ id)
    (l : List Job) (h : updateFirst jobs id f = some l) :
    l.find? (fun x => x.job_id == oid) =
      jobs.find? (fun x => x.job_id == oid) := by
  induction jobs generalizing l with
  | nil => simp [updateFirst] at h
  | cons x rest ih =>
      by_cases hx : x.job_id = id
      · have hl : l = f x :: rest := by
          simpa [updateFirst, hx] using h.symm
        subst hl
        have h1 : ((f x).job_id == oid) = false := by
          simp [hf, hx]
          exact fun hc => hne hc.symm
        have h2 : (x.job_id == oid) = false := by
          simp [hx]
          exact fun hc => hne hc.symm
        simp [List.find?, h1, h2]
      · simp only [updateFirst, if_neg hx] at h
        obtain ⟨l', hl', rfl⟩ := Option.map_eq_some'.mp h
        simp [List.find?, ih l' hl']

theorem updateFirst_filter_ne (jobs : List Job) (id : String) (f : Job → Job)
    (hf : ∀ x, (f x).job_id = x.job_id)
    (l : List Job) (h : updateFirst jobs id f = some l) :
    l.filter (fun x => x.job_id != id) =
      jobs.filter (fun x => x.job_id != id) := by
  induction jobs generalizing l with
  | nil => simp [updateFirst] at h
  | cons x rest ih =>
      by_cases hx : x.job_id = id
      · have hl : l = f x :: rest := by
          simpa [updateFirst, hx] using h.symm
        subst hl
        simp [List.filter, hf, hx]
      · simp only [updateFirst, if_neg hx] at h
        obtain ⟨l', hl', rfl⟩ := Option.map_eq_some'.mp h
        simp [List.filter, hx, ih l' hl']

theorem update_found (store : Store) (id : String) (j : Job) (st : JobStatus)
    (p : Option Int) (lu vu em : Option String) (t : String)
    (h : get_job store id = some j) :
    (update_job_status store id st p lu vu em t).1 = true ∧
    get_job (update_job_status store id st p lu vu em t).2 id =
      some (applyUpdate j st p lu vu em t) := by
  obtain ⟨l, hl, hfind⟩ := updateFirst_find_self store id
    (fun x => applyUpdate x st p lu vu em t)
    (fun x => applyUpdate_job_id x st p lu vu em t) j h
  simp [update_job_status, hl, get_job, hfind]

theorem update_not_found (store : Store) (id : String) (st : JobStatus)
    (p : Option Int) (lu vu em : Option String) (t : String)
    (h : get_job store id = none) :
    update_job_status store id st p lu vu em t = (false, store) := by
  have := (updateFirst_eq_none store id
    (fun x => applyUpdate x st p lu vu em t)).mpr h
  simp [update_job_status, this]

theorem update_other (store : Store) (id : String) (st : JobStatus)
    (p : Option Int) (lu vu em : Option String) (t : String)
    (oid : String) (hne : oid ≠ id) :
    get_job (update_job_status store id st p lu vu em t).2 oid =
      get_job store oid := by
  rcases hl : updateFirst store id
      (fun x => applyUpdate x st p lu vu em t) with _ | l
  · simp [update_job_status, hl]
  · simpa [update_job_status, hl, get_job] using
      updateFirst_find_other store id _
        (fun x => applyUpdate_job_id x st p lu vu em t) oid hne l hl

/-! ### Field-level lemmas about `applyUpdate` -/

theorem applyUpdate_logo_none (j : Job) (st : JobStatus) (p : Option Int)
    (vu em : Option String) (t : String) :
    (applyUpdate j st p none vu em t).logo_url = j.logo_url := by
  cases st <;> cases p <;> cases vu <;> cases em <;> simp [applyUpdate]

theorem applyUpdate_video_none (j : Job) (st : JobStatus) (p : Option Int)
    (lu em : Option String) (t : String) :
    (applyUpdate j st p lu none em t).video_url = j.video_url := by
  cases st <;> cases p <;> cases lu <;> cases em <;> simp [applyUpdate]

theorem applyUpdate_error_none (j : Job) (st : JobStatus) (p : Option Int)
    (lu vu : Option String) (t : String) :
    (applyUpdate j st p lu vu none t).error_message = j.error_message := by
  cases st <;> cases p <;> cases lu <;> cases vu <;> simp [applyUpdate]

theorem applyUpdate_error_some (j : Job) (st : JobStatus) (p : Option Int)
    (lu vu : Option String) (msg t : String) :
    (applyUpdate j st p lu vu (some msg) t).error_message = some msg := by
  cases st <;> cases p <;> cases lu <;> cases vu <;> simp [applyUpdate]

theorem applyUpdate_progress_none (j : Job) (st : JobStatus)
    (lu vu em : Option String) (t : String) :
    (applyUpdate j st none lu vu em t).progress =
      (if st = .completed ∨ st = .failed then 100 else j.progress) := by
  cases st <;> cases lu <;> cases vu <;> cases em <;> simp [applyUpdate]

theorem applyUpdate_started_at (j : Job) (p : Option Int)
    (lu vu em : Option String) (t : String) :
    (applyUpdate j .processing p lu vu em t).started_at = some t := by
  cases p <;> cases lu <;> cases vu <;> cases em <;> simp [applyUpdate]

/-! ### Claim theorems -/

/-- C10: `create_job` does not enforce id uniqueness: a second
`create_job` with an id already in the store returns `true` and inserts
a second record at the head, and `get_job` then returns the most
recently created record. -/
theorem create_job_duplicate_id_inserts (store : Store) (id p1 : String)
    (jt1 : JobType) (u1 t1 p2 : String) (jt2 : JobType) (u2 t2 : String) :
    (create_job store id p1 jt1 u1 t1).1 = true ∧
    (create_job (create_job store id p1 jt1 u1 t1).2 id p2 jt2 u2 t2).1 = true ∧
    (create_job (create_job store id p1 jt1 u1 t1).2 id p2 jt2 u2 t2).2 =
      mkNewJob id p2 jt2 u2 t2 :: mkNewJob id p1 jt1 u1 t1 :: store ∧
    get_job (create_job (create_job store id p1 jt1 u1 t1).2 id p2 jt2 u2 t2).2 id =
      some (mkNewJob id p2 jt2 u2 t2) := by
  refine ⟨rfl, rfl, rfl, ?_⟩
  simp [get_job, create_job, List.find?, mkNewJob]

/-- A terminal (completed) record used to exercise `update_job_status`. -/
def jobC2 : Job :=
  { mkNewJob "a" "p" JobType.logo "u" "t0" with
    status := "completed", completed_at := some "tc", progress := 100 }

/-- C2 fails on the code: `update_job_status` has no terminal-state
guard, so a call on a record whose `completed_at` is set does change
the record. -/
theorem update_terminal_record_changes :
    jobC2.completed_at = some "tc" ∧
    (update_job_status [jobC2] "a" JobStatus.processing none none none none "t9").2 =
      [{ jobC2 with status := "processing", started_at := some "t9" }] ∧
    ({ jobC2 with status := "processing", started_at := some "t9" } : Job) ≠ jobC2 := by
  decide

/-- C2 as amended: `update_job_status` applies to a record whose
`completed_at` is already set exactly as to any other record — the call
succeeds and the stored status is overwritten with the new value; no
terminal guard exists. -/
theorem update_ignores_terminal_guard (store : Store) (id : String) (j : Job)
    (tc : String) (st : JobStatus) (p : Option Int) (lu vu em : Option String)
    (t : String) (hj : get_job store id = some j)
    (_hterm : j.completed_at = some tc) :
    (update_job_status store id st p lu vu em t).1 = true ∧
    ∃ j', get_job (update_job_status store id st p lu vu em t).2 id = some j' ∧
      j'.status = st.value := by
  obtain ⟨h1, h2⟩ := update_found store id j st p lu vu em t hj
  exact ⟨h1, _, h2, applyUpdate_status j st p lu vu em t⟩

/-- Witness for the amended C2 at a concrete terminal record. -/
theorem update_ignores_terminal_guard_witness :
    get_job [jobC2] "a" = some jobC2 ∧
    jobC2.completed_at = some "tc" ∧
    ((update_job_status [jobC2] "a" JobStatus.processing none none none none "t9").1 = true ∧
     ∃ j', get_job (update_job_status [jobC2] "a" JobStatus.processing none none none none "t9").2 "a" =
        some j' ∧ j'.status = JobStatus.processing.value) :=
  ⟨by decide, by decide,
    update_ignores_terminal_guard [jobC2] "a" jobC2 "tc" JobStatus.processing
      none none none none "t9" (by decide) (by decide)⟩

/-- A record already stamped with `started_at`. -/
def jobC5 : Job :=
  { mkNewJob "a" "p" JobType.logo "u" "t0" with
    status := "processing", started_at := some "t1" }

/-- C5 fails on the code: the timestamp block of `update_job_status`
runs on every `PROCESSING` update, so a further processing update
overwrites an already-set `started_at`. -/
theorem update_processing_restamps_started_at :
    jobC5.started_at = some "t1" ∧
    (update_job_status [jobC5] "a" JobStatus.processing (some 50) none none none "t2").2 =
      [{ jobC5 with progress := 50, started_at := some "t2" }] ∧
    (some "t2" : Option String) ≠ some "t1" := by
  decide

/-- C5 as amended: `update_job_status` stamps `started_at` on every
transition into Processing, overwriting any previously set value with
the current call's timestamp. -/
theorem update_processing_always_stamps (store : Store) (id : String) (j : Job)
    (p : Option Int) (lu vu em : Option String) (t : String)
    (hj : get_job store id = some j) :
    ∃ j', get_job (update_job_status store id .processing p lu vu em t).2 id =
      some j' ∧ j'.started_at = some t := by
  obtain ⟨_, h2⟩ := update_found store id j .processing p lu vu em t hj
  exact ⟨_, h2, applyUpdate_started_at j p lu vu em t⟩

/-- Witness for the amended C5 at a record whose `started_at` is set. -/
theorem update_processing_always_stamps_witness :
    get_job [jobC5] "a" = some jobC5 ∧
    ∃ j', get_job (update_job_status [jobC5] "a" JobStatus.processing (some 50)
        none none none "t2").2 "a" = some j' ∧ j'.started_at = some "t2" :=
  ⟨by decide,
    update_processing_always_stamps [jobC5] "a" jobC5 (some 50) none none none "t2"
      (by decide)⟩

/-- A one-record store without the id `"zzz"`. -/
def jobC6 : Job := mkNewJob "a" "p" JobType.logo "u" "t0"

/-- C6 fails on the code: `delete_job` of an unknown id returns the
save result `true`, not `false` (the collection is indeed unchanged). -/
theorem delete_unknown_id_returns_true :
    get_job [jobC6] "zzz" = none ∧
    delete_job [jobC6] "zzz" = (true, [jobC6]) ∧
    (delete_job [jobC6] "zzz").1 ≠ false := by
  decide

/-- C6 as amended: `delete_job` of an id not present leaves the
persisted collection unchanged, but returns `true` (the save result),
not `false`. -/
theorem delete_unknown_id_noop (store : Store) (id : String)
    (h : get_job store id = none) :
    delete_job store id = (true, store) := by
  have hall : ∀ j ∈ store, (j.job_id != id) = true := by
    intro j hj
    have := List.find?_eq_none.mp h j hj
    simpa using this
  simp [delete_job, List.filter_eq_self.mpr hall]

/-- Witness for the amended C6 on a concrete store. -/
theorem delete_unknown_id_noop_witness :
    get_job [jobC6] "zzz" = none ∧ delete_job [jobC6] "zzz" = (true, [jobC6]) :=
  ⟨by decide, delete_unknown_id_noop [jobC6] "zzz" (by decide)⟩

/-- A processing record with `progress = 30`. -/
def jobC9 : Job :=
  { mkNewJob "a" "p" JobType.logo "u" "t0" with
    status := "processing", started_at := some "t1", progress := 30 }

/-- C9 fails on the code as universally stated: on a transition into
Completed or Failed with the `progress` argument absent, the stored
`progress` is overwritten to 100 instead of keeping its prior value. -/
theorem update_absent_progress_overwritten :
    jobC9.progress = 30 ∧
    (update_job_status [jobC9] "a" JobStatus.completed none none none none "t9").2 =
      [{ jobC9 with status := "completed", completed_at := some "t9", progress := 100 }] ∧
    (100 : Int) ≠ 30 := by
  decide

/-- C9 as amended: an absent `logo_url`, `video_url` or `error_message`
argument leaves the corresponding stored field at its previous value,
an absent `progress` does too unless the new status is Completed or
Failed (then `progress` is set to 100), and the record of every other
job id is unchanged. -/
theorem update_frame_absent_args (store : Store) (id : String) (j : Job)
    (st : JobStatus) (p : Option Int) (lu vu em : Option String) (t : String)
    (hj : get_job store id = some j) :
    ∃ j', get_job (update_job_status store id st p lu vu em t).2 id = some j' ∧
      (lu = none → j'.logo_url = j.logo_url) ∧
      (vu = none → j'.video_url = j.video_url) ∧
      (em = none → j'.error_message = j.error_message) ∧
      (p = none → j'.progress =
        (if st = .completed ∨ st = .failed then 100 else j.progress)) ∧
      (∀ oid, oid ≠ id →
        get_job (update_job_status store id st p lu vu em t).2 oid =
          get_job store oid) := by
  obtain ⟨_, h2⟩ := update_found store id j st p lu vu em t hj
  refine ⟨_, h2, ?_, ?_, ?_, ?_, ?_⟩
  · rintro rfl; exact applyUpdate_logo_none j st p vu em t
  · rintro rfl; exact applyUpdate_video_none j st p lu em t
  · rintro rfl; exact applyUpdate_error_none j st p lu vu t
  · rintro rfl; exact applyUpdate_progress_none j st lu vu em t
  · intro oid hne; exact update_other store id st p lu vu em t oid hne

/-- Witness for the amended C9 on a concrete two-record store. -/
theorem update_frame_absent_args_witness :
    get_job [jobC9, jobC6] "a" = some jobC9 ∧
    (∃ j', get_job (update_job_status [jobC9, jobC6] "a" JobStatus.processing
        (some 50) none none none "t2").2 "a" = some j' ∧
      ((none : Option String) = none → j'.logo_url = jobC9.logo_url) ∧
      ((none : Option String) = none → j'.video_url = jobC9.video_url) ∧
      ((none : Option String) = none → j'.error_message = jobC9.error_message) ∧
      ((some 50 : Option Int) = none → j'.progress =
        (if JobStatus.processing = .completed ∨ JobStatus.processing = .failed
          then 100 else jobC9.progress)) ∧
      (∀ oid, oid ≠ "a" →
        get_job (update_job_status [jobC9, jobC6] "a" JobStatus.processing
          (some 50) none none none "t2").2 oid =
          get_job [jobC9, jobC6] oid)) :=
  ⟨by decide,
    update_frame_absent_args [jobC9, jobC6] "a" jobC9 JobStatus.processing
      (some 50) none none none "t2" (by decide)⟩

/-- A processing record for the cancellation scenario. -/
def jobC4 : Job :=
  { mkNewJob "a" "p" JobType.logo "u" "t0" with
    status := "processing", started_at := some "t1" }

/-- C4 fails on the code on the message: cancelling an active job does
remove it from the registry, return `true` and persist `Failed`, but
the persisted `error_message` is `"Job cancelled by user"`, not
`"cancelled"`. -/
theorem cancel_message_differs :
    "a" ∈ (⟨["a"]⟩ : JobManager).active_jobs ∧
    (JobManager.cancel_job ⟨["a"]⟩ [jobC4] "a" "t9").1 = true ∧
    (get_job (JobManager.cancel_job ⟨["a"]⟩ [jobC4] "a" "t9").2.2 "a").map
        Job.error_message = some (some "Job cancelled by user") ∧
    (some (some "Job cancelled by user") : Option (Option String)) ≠
      some (some "cancelled") := by
  decide

/-- C4 as amended: for every job id in the active registry,
`cancel_job` removes it from the registry, returns `true`, and the
persisted record becomes status `"failed"` with `error_message` exactly
`"Job cancelled by user"`. -/
theorem cancel_active_job (m : JobManager) (store : Store) (id : String)
    (j : Job) (t : String) (hm : id ∈ m.active_jobs)
    (hj : get_job store id = some j) :
    (m.cancel_job store id t).1 = true ∧
    id ∉ (m.cancel_job store id t).2.1.active_jobs ∧
    ∃ j', get_job (m.cancel_job store id t).2.2 id = some j' ∧
      j'.status = "failed" ∧
      j'.error_message = some "Job cancelled by user" := by
  obtain ⟨_, h2⟩ := update_found store id j .failed none none none
    (some "Job cancelled by user") t hj
  refine ⟨by simp [JobManager.cancel_job, hm], ?_, ?_⟩
  · simp [JobManager.cancel_job, hm, List.mem_filter]
  · refine ⟨applyUpdate j .failed none none none
      (some "Job cancelled by user") t, ?_, ?_, ?_⟩
    · simpa [JobManager.cancel_job, hm] using h2
    · exact applyUpdate_status j .failed none none none
        (some "Job cancelled by user") t
    · exact applyUpdate_error_some j .failed none none none
        "Job cancelled by user" t

/-- Witness for the amended C4 at a concrete active job. -/
theorem cancel_active_job_witness :
    "a" ∈ (⟨["a"]⟩ : JobManager).active_jobs ∧
    get_job [jobC4] "a" = some jobC4 ∧
    ((JobManager.cancel_job ⟨["a"]⟩ [jobC4] "a" "t9").1 = true ∧
     "a" ∉ (JobManager.cancel_job ⟨["a"]⟩ [jobC4] "a" "t9").2.1.active_jobs ∧
     ∃ j', get_job (JobManager.cancel_job ⟨["a"]⟩ [jobC4] "a" "t9").2.2 "a" =
        some j' ∧ j'.status = "failed" ∧
        j'.error_message = some "Job cancelled by user") :=
  ⟨by decide, by decide,
    cancel_active_job ⟨["a"]⟩ [jobC4] "a" jobC4 "t9" (by decide) (by decide)⟩

/-- Delivery behaviour where observer `0` has a closed connection and
every other observer is healthy. -/
def sendC3 : Nat → Except String Unit :=
  fun n => if n = 0 then .error "closed" else .ok ()

/-- C3 fails on the code: the broadcast loop has no per-observer error
handling, so the failing first observer aborts the whole loop — the
healthy second observer receives nothing — and the failed observer is
not removed from `active_connections`. -/
theorem broadcast_failure_aborts :
    sendC3 0 = .error "closed" ∧
    sendC3 1 = .ok () ∧
    ConnectionManager.broadcast ⟨[0, 1]⟩ sendC3 =
      (⟨[0, 1]⟩, ([], some "closed")) := by
  refine ⟨rfl, rfl, rfl⟩

/-- The broadcast loop delivers exactly to the observers before the
first failing one, then the exception propagates. -/
theorem broadcastGo_first_fail (a : List Nat) (c : Nat) (b : List Nat)
    (send : Nat → Except String Unit) (msg : String)
    (ha : ∀ x ∈ a, send x = .ok ()) (hc : send c = .error msg) :
    broadcastGo (a ++ c :: b) send = (a, some msg) := by
  induction a with
  | nil => simp [broadcastGo, hc]
  | cons x a' ih =>
      have hx := ha x (by simp)
      simp [broadcastGo, hx, ih (fun y hy => ha y (by simp [hy]))]

/-- C3 as amended: a delivery failure to one observer aborts the
broadcast — observers registered after the failing one receive nothing,
the exception propagates to the caller, and the observer set is left
unchanged (in particular the failed observer is not unregistered). -/
theorem broadcast_aborts_and_keeps_observers (m : ConnectionManager)
    (send : Nat → Except String Unit) (a : List Nat) (c : Nat) (b : List Nat)
    (msg : String) (hconn : m.active_connections = a ++ c :: b)
    (ha : ∀ x ∈ a, send x = .ok ()) (hc : send c = .error msg) :
    ConnectionManager.broadcast m send = (m, (a, some msg)) := by
  simp [ConnectionManager.broadcast, hconn,
    broadcastGo_first_fail a c b send msg ha hc]

/-- Witness for the amended C3 at two concrete observers. -/
theorem broadcast_aborts_witness :
    (⟨[0, 1]⟩ : ConnectionManager).active_connections = [] ++ 0 :: [1] ∧
    (∀ x ∈ ([] : List Nat), sendC3 x = .ok ()) ∧
    sendC3 0 = .error "closed" ∧
    ConnectionManager.broadcast ⟨[0, 1]⟩ sendC3 = (⟨[0, 1]⟩, ([], some "closed")) :=
  ⟨rfl, by simp, rfl,
    broadcast_aborts_and_keeps_observers ⟨[0, 1]⟩ sendC3 [] 0 [1] "closed"
      rfl (by simp) rfl⟩

/-- C7: when the logo backend call raises, the freshly created job ends
`Failed` with `error_message = "Logo generation failed: <cause>"`
(which contains the cause), both asset fields stay unset, and the video
backend is invoked zero times — whatever `generate_video` was. -/
theorem process_job_logo_failure (store : Store) (job_id prompt : String)
    (jt : JobType) (user_id t0 : String) (generate_video : Bool) (e : String)
    (vres : Except String String) (t1 t2 t3 t4 t5 t6 : String) :
    (process_job (create_job store job_id prompt jt user_id t0).2 job_id
      generate_video (.error e) vres t1 t2 t3 t4 t5 t6).2 = 0 ∧
    (get_job (process_job (create_job store job_id prompt jt user_id t0).2 job_id
      generate_video (.error e) vres t1 t2 t3 t4 t5 t6).1 job_id).map Job.status =
      some "failed" ∧
    (get_job (process_job (create_job store job_id prompt jt user_id t0).2 job_id
      generate_video (.error e) vres t1 t2 t3 t4 t5 t6).1 job_id).map
        Job.error_message = some (some ("Logo generation failed: " ++ e)) ∧
    (get_job (process_job (create_job store job_id prompt jt user_id t0).2 job_id
      generate_video (.error e) vres t1 t2 t3 t4 t5 t6).1 job_id).map Job.logo_url =
      some none ∧
    (get_job (process_job (create_job store job_id prompt jt user_id t0).2 job_id
      generate_video (.error e) vres t1 t2 t3 t4 t5 t6).1 job_id).map Job.video_url =
      some none := by
  simp [create_job, process_job, update_job_status, updateFirst, applyUpdate,
    mkNewJob, get_job, List.find?, JobStatus.value]

/-- C8: with `generate_video = true`, a succeeding logo backend and a
raising video backend, the freshly created job still ends `Completed`
with `progress = 100`, `logo_url` set to the logo result and
`video_url` unset — the video failure does not fail the job. -/
theorem process_job_video_failure_completes (store : Store)
    (job_id prompt : String) (jt : JobType) (user_id t0 : String)
    (l ev : String) (t1 t2 t3 t4 t5 t6 : String) :
    (get_job (process_job (create_job store job_id prompt jt user_id t0).2 job_id
      true (.ok l) (.error ev) t1 t2 t3 t4 t5 t6).1 job_id).map Job.status =
      some "completed" ∧
    (get_job (process_job (create_job store job_id prompt jt user_id t0).2 job_id
      true (.ok l) (.error ev) t1 t2 t3 t4 t5 t6).1 job_id).map Job.progress =
      some 100 ∧
    (get_job (process_job (create_job store job_id prompt jt user_id t0).2 job_id
      true (.ok l) (.error ev) t1 t2 t3 t4 t5 t6).1 job_id).map Job.logo_url =
      some (some l) ∧
    (get_job (process_job (create_job store job_id prompt jt user_id t0).2 job_id
      true (.ok l) (.error ev) t1 t2 t3 t4 t5 t6).1 job_id).map Job.video_url =
      some none := by
  simp [create_job, process_job, update_job_status, updateFirst, applyUpdate,
    mkNewJob, get_job, List.find?, JobStatus.value]

/-! ### C1: forward-only status along system traces -/

theorem pipelineMids_proc {pre : List JobOp} (h : PipelineMids pre) :
    ∀ op ∈ pre, op.status = .processing := by
  cases h <;> simp [procOp]

/-- Every per-job write sequence the system performs consists of
processing-status updates followed by exactly one terminal update. -/
theorem sysTrace_shape {ops : List JobOp} (h : SysTrace ops) :
    ∃ pre last, ops = pre ++ [last] ∧
      (∀ op ∈ pre, op.status = .processing) ∧
      (last.status = .completed ∨ last.status = .failed) := by
  cases h with
  | cancel_before_start t =>
      exact ⟨[], cancelOp t, rfl, by simp, Or.inr rfl⟩
  | logo_failed t1 t2 e t3 =>
      exact ⟨[procOp 10 none none t1, procOp 30 none none t2], logoFailOp e t3,
        rfl, by simp [procOp], Or.inr rfl⟩
  | cancelled_at_logo t1 t2 t3 =>
      exact ⟨[procOp 10 none none t1, procOp 30 none none t2], cancelOp t3,
        rfl, by simp [procOp], Or.inr rfl⟩
  | completed_no_video t1 t2 l t3 t4 =>
      exact ⟨[procOp 10 none none t1, procOp 30 none none t2,
        procOp 60 (some l) none t3], doneOp (some l) none t4,
        rfl, by simp [procOp], Or.inl rfl⟩
  | cancelled_at_video t1 t2 l t3 t4 t5 =>
      exact ⟨[procOp 10 none none t1, procOp 30 none none t2,
        procOp 60 (some l) none t3, procOp 70 none none t4], cancelOp t5,
        rfl, by simp [procOp], Or.inr rfl⟩
  | completed_with_video t1 t2 l t3 t4 v t5 t6 =>
      exact ⟨[procOp 10 none none t1, procOp 30 none none t2,
        procOp 60 (some l) none t3, procOp 70 none none t4,
        procOp 90 (some l) (some v) t5], doneOp (some l) (some v) t6,
        rfl, by simp [procOp], Or.inl rfl⟩
  | completed_video_failed t1 t2 l t3 t4 t5 =>
      exact ⟨[procOp 10 none none t1, procOp 30 none none t2,
        procOp 60 (some l) none t3, procOp 70 none none t4],
        doneOp (some l) none t5,
        rfl, by simp [procOp], Or.inl rfl⟩
  | outer_failure e t hpre =>
      exact ⟨_, outerFailOp e t, rfl, pipelineMids_proc hpre, Or.inr rfl⟩

theorem statusAfter_cons (store : Store) (id : String) (op : JobOp)
    (l : List JobOp) :
    statusAfter store id (op :: l) = statusAfter (applyOp store id op) id l := rfl

/-- The persisted status of the job after the first `i` writes of a
processing-then-terminal sequence: its creation status for `i = 0`,
`"processing"` through the milestone updates, the terminal value at
the end. -/
theorem statusAfter_decomp (pre : List JobOp) (last : JobOp) :
    ∀ (store : Store) (id : String) (j : Job),
      (∀ op ∈ pre, op.status = .processing) →
      get_job store id = some j →
      ∀ i, i ≤ pre.length + 1 →
        statusAfter store id ((pre ++ [last]).take i) =
          if i = 0 then some j.status
          else if i ≤ pre.length then some "processing"
          else some last.status.value := by
  induction pre with
  | nil =>
      intro store id j _ hj i hi
      cases i with
      | zero => simp [statusAfter, applyOps, hj]
      | succ i' =>
          simp only [List.length_nil] at hi
          have h0 : i' = 0 := by omega
          subst h0
          have h2 := (update_found store id j last.status last.progress
            last.logo_url last.video_url last.error_message last.now hj).2
          simp [statusAfter, applyOps, applyOp, h2, applyUpdate_status]
  | cons op pre' ih =>
      intro store id j hpre hj i hi
      cases i with
      | zero => simp [statusAfter, applyOps, hj]
      | succ i' =>
          simp only [List.length_cons] at hi
          have hop : op.status = .processing := hpre op (by simp)
          have hj1 : get_job (applyOp store id op) id =
              some (applyUpdate j op.status op.progress op.logo_url
                op.video_url op.error_message op.now) :=
            (update_found store id j op.status op.progress op.logo_url
              op.video_url op.error_message op.now hj).2
          have hres := ih (applyOp store id op) id _
            (fun o ho => hpre o (List.mem_cons_of_mem _ ho)) hj1 i' (by omega)
          rw [List.cons_append, List.take_succ_cons, statusAfter_cons, hres]
          rw [applyUpdate_status, hop]
          by_cases hle : i' ≤ pre'.length
          · have h1 : i' + 1 ≤ (op :: pre').length := by simp; omega
            simp [hle, h1, JobStatus.value]
          · have h1 : ¬ (i' + 1 ≤ (op :: pre').length) := by simp; omega
            have h0 : i' ≠ 0 := by omega
            simp [hle, h1, h0]

/-- C1: along every write sequence the running system can perform on a
freshly created (pending) job — the pipeline's updates with
cancellation interleaved at suspension points — the persisted status
only moves forward along `Pending -> Processing -> {Completed, Failed}`
(its rank never decreases between any two points of the trace), and
once it is `completed` or `failed` it never changes again. -/
theorem status_forward_along_system_traces (store : Store) (job_id : String)
    (j : Job) (ops : List JobOp) (htr : SysTrace ops)
    (hj : get_job store job_id = some j) (hpend : j.status = "pending")
    (i k : Nat) (hik : i ≤ k) (hk : k ≤ ops.length) :
    ∃ si sk, statusAfter store job_id (ops.take i) = some si ∧
      statusAfter store job_id (ops.take k) = some sk ∧
      statusRank si ≤ statusRank sk ∧
      ((si = "completed" ∨ si = "failed") → sk = si) := by
  obtain ⟨pre, last, rfl, hpre, hterm⟩ := sysTrace_shape htr
  simp only [List.length_append, List.length_cons, List.length_nil] at hk
  have hi' : i ≤ pre.length + 1 := by omega
  have hk' : k ≤ pre.length + 1 := by omega
  have Di := statusAfter_decomp pre last store job_id j hpre hj i hi'
  have Dk := statusAfter_decomp pre last store job_id j hpre hj k hk'
  rw [hpend] at Di Dk
  refine ⟨if i = 0 then "pending" else if i ≤ pre.length then "processing"
      else last.status.value,
    if k = 0 then "pending" else if k ≤ pre.length then "processing"
      else last.status.value, ?_, ?_, ?_, ?_⟩
  · rw [Di]; split_ifs <;> rfl
  · rw [Dk]; split_ifs <;> rfl
  · rcases hterm with h | h <;> rw [h] <;> split_ifs <;>
      first | decide | omega
  · rcases hterm with h | h <;> rw [h] <;> split_ifs <;> intro hsi <;>
      first
        | rfl
        | omega
        | (rcases hsi with h' | h' <;> exact absurd h' (by decide))

/-- Witness for C1: a fresh pending job run through the logo-failure
trace, compared between the first processing update and the terminal
one. -/
theorem status_forward_witness :
    SysTrace [procOp 10 none none "t1", procOp 30 none none "t2",
      logoFailOp "boom" "t3"] ∧
    get_job [mkNewJob "a" "p" JobType.logo "u" "t0"] "a" =
      some (mkNewJob "a" "p" JobType.logo "u" "t0") ∧
    (mkNewJob "a" "p" JobType.logo "u" "t0").status = "pending" ∧
    1 ≤ 3 ∧
    3 ≤ [procOp 10 none none "t1", procOp 30 none none "t2",
      logoFailOp "boom" "t3"].length ∧
    ∃ si sk,
      statusAfter [mkNewJob "a" "p" JobType.logo "u" "t0"] "a"
        ([procOp 10 none none "t1", procOp 30 none none "t2",
          logoFailOp "boom" "t3"].take 1) = some si ∧
      statusAfter [mkNewJob "a" "p" JobType.logo "u" "t0"] "a"
        ([procOp 10 none none "t1", procOp 30 none none "t2",
          logoFailOp "boom" "t3"].take 3) = some sk ∧
      statusRank si ≤ statusRank sk ∧
      ((si = "completed" ∨ si = "failed") → sk = si) :=
  ⟨SysTrace.logo_failed "t1" "t2" "boom" "t3", by decide, rfl, by decide, by decide,
    status_forward_along_system_traces [mkNewJob "a" "p" JobType.logo "u" "t0"]
      "a" (mkNewJob "a" "p" JobType.logo "u" "t0")
      [procOp 10 none none "t1", procOp 30 none none "t2", logoFailOp "boom" "t3"]
      (SysTrace.logo_failed "t1" "t2" "boom" "t3") (by decide) rfl 1 3
      (by decide) (by decide)⟩

end AiAdvert
